import Mathlib

/-!
Verification development for the it-chain/Heimdall repository.

This file gives a shallow embedding, in Lean 4, of the parts of the
repository that the verified properties talk about:

* `keyGenOpts.go` (package `heimdall`): the key-generation option registry,
  its validity check and its string codec.
* the ECDSA key entity of package `key`
  (`sample/ecdsa/heimdall-ecdsa-sample.go`, appended part): the key pair
  structures and their subject-key-identifier (SKI) computation, together
  with a concrete SHA-256 (FIPS 180-4, as implemented by Go `crypto/sha256`)
  and Go's `elliptic.Marshal` uncompressed-point encoding.
* `keystore/keystore.go` (package `keystore`): `StoreKey` and `LoadKey`
  with explicit file-system / randomness state.  The keystore's
  collaborators that are not part of the analysed sources (the KDF, the
  cipher, the key recoverer, the option constructors, the key-ID helpers
  and the JSON codec) are modelled from the specification and kept either
  abstract (fields of `KeystoreEnv`) or as concrete executable stand-ins.
* `key/keyManagerImpl.go` (package `key`): the stateful key manager's
  `GenerateKey` / `GetKey` life-cycle with an explicit on-disk state.

Machine integers are embedded as `Nat` / `Int` with explicit `% 2 ^ 32`
where overflow matters; fallible Go functions return `Except String`.
-/

/-! ## keyGenOpts.go (package heimdall) -/

/-- Go: `RSA1024 KeyGenOpts = iota` — `heimdall.KeyGenOpts` is an `int`. -/
def RSA1024 : Int := 0

/-- Go: `RSA2048`. -/
def RSA2048 : Int := 1

/-- Go: `RSA4096`. -/
def RSA4096 : Int := 2

/-- Go: `ECDSA224`. -/
def ECDSA224 : Int := 3

/-- Go: `ECDSA256`. -/
def ECDSA256 : Int := 4

/-- Go: `ECDSA384`. -/
def ECDSA384 : Int := 5

/-- Go: `ECDSA521`. -/
def ECDSA521 : Int := 6

/-- Go: `UNKNOWN_KEYGENOPT`. -/
def UNKNOWN_KEYGENOPT : Int := 7

/-- Go: `var optsArr = [...]string{...}` — note the eighth entry
`"unknown_keyGenOpt"`. -/
def optsArr : List String :=
  ["rsa1024", "rsa2048", "rsa4096", "ecdsa224", "ecdsa256", "ecdsa384", "ecdsa521",
   "unknown_keyGenOpt"]

/-- Go: `func (opts KeyGenOpts) ValidCheck() bool` — returns `false` iff
`opts < 0 || opts >= KeyGenOpts(len(optsArr))`. -/
def validCheck (opts : Int) : Bool :=
  if opts < 0 ∨ (optsArr.length : Int) ≤ opts then false else true

/-- Go: `func (opts KeyGenOpts) String() string` — `"unknown"` when the
validity check fails, otherwise `optsArr[opts]`. -/
def keyGenOptsString (opts : Int) : String :=
  if ¬ validCheck opts then "unknown" else optsArr.getD opts.toNat "unknown"

/-- The range loop inside Go's `StringToKeyGenOpts`: first index of
`optsArr` whose entry equals the raw string. -/
def findOptIdx : List String → Nat → String → Option Nat
  | [], _, _ => none
  | o :: rest, idx, raw => if raw = o then some idx else findOptIdx rest (idx + 1) raw

/-- Go: `func StringToKeyGenOpts(rawOpts string) (KeyGenOpts, error)` —
the error is modelled as `Option String` (`none` = nil error). -/
def stringToKeyGenOpts (rawOpts : String) : Int × Option String :=
  match findOptIdx optsArr 0 rawOpts with
  | some idx => ((idx : Int), none)
  | none => (UNKNOWN_KEYGENOPT, some "no such key generation option in option list")

/-! ## SHA-256 (Go crypto/sha256, used by the ECDSA SKI computation) -/

/-- Truncation to a 32-bit machine word. -/
def w32 (x : Nat) : Nat := x % 2 ^ 32

/-- 32-bit rotate right. -/
def rotr (n x : Nat) : Nat := w32 ((x >>> n) ||| (x <<< (32 - n)))

/-- FIPS 180-4 Σ₀ (big sigma 0). -/
def bigSig0 (x : Nat) : Nat := Nat.xor (Nat.xor (rotr 2 x) (rotr 13 x)) (rotr 22 x)

/-- FIPS 180-4 Σ₁ (big sigma 1). -/
def bigSig1 (x : Nat) : Nat := Nat.xor (Nat.xor (rotr 6 x) (rotr 11 x)) (rotr 25 x)

/-- FIPS 180-4 σ₀ (small sigma 0). -/
def smallSig0 (x : Nat) : Nat := Nat.xor (Nat.xor (rotr 7 x) (rotr 18 x)) (x >>> 3)

/-- FIPS 180-4 σ₁ (small sigma 1). -/
def smallSig1 (x : Nat) : Nat := Nat.xor (Nat.xor (rotr 17 x) (rotr 19 x)) (x >>> 10)

/-- FIPS 180-4 Ch: choose `f` or `g` by the bits of `e` (the complement of
the 32-bit word `e` is `e XOR (2^32 - 1)`). -/
def sha256Ch (e f g : Nat) : Nat := Nat.xor (e &&& f) (Nat.land (Nat.xor e (2 ^ 32 - 1)) g)

/-- FIPS 180-4 Maj: bitwise majority of the three words. -/
def sha256Maj (a b c : Nat) : Nat := Nat.xor (Nat.xor (a &&& b) (a &&& c)) (b &&& c)

/-- The 64 SHA-256 round constants (FIPS 180-4 §4.2.2, decimal form). -/
def sha256K : List Nat :=
  [1116352408, 1899447441, 3049323471, 3921009573, 961987163, 1508970993,
   2453635748, 2870763221, 3624381080, 310598401, 607225278, 1426881987,
   1925078388, 2162078206, 2614888103, 3248222580, 3835390401, 4022224774,
   264347078, 604807628, 770255983, 1249150122, 1555081692, 1996064986,
   2554220882, 2821834349, 2952996808, 3210313671, 3336571891, 3584528711,
   113926993, 338241895, 666307205, 773529912, 1294757372, 1396182291,
   1695183700, 1986661051, 2177026350, 2456956037, 2730485921, 2820302411,
   3259730800, 3345764771, 3516065817, 3600352804, 4094571909, 275423344,
   430227734, 506948616, 659060556, 883997877, 958139571, 1322822218,
   1537002063, 1747873779, 1955562222, 2024104815, 2227730452, 2361852424,
   2428436474, 2756734187, 3204031479, 3329325298]

/-- The SHA-256 initial hash state (FIPS 180-4 §5.3.3, decimal form). -/
def sha256H0 : List Nat :=
  [1779033703, 3144134277, 1013904242, 2773480762,
   1359893119, 2600822924, 528734635, 1541459225]

/-- Big-endian encoding of `x` into exactly `n` bytes. -/
def natToBytesBE (n : Nat) (x : Nat) : List Nat :=
  (List.range n).map (fun i => (x >>> (8 * (n - 1 - i))) % 2 ^ 8)

/-- SHA-256 padding: append `0x80`, zeros up to 56 mod 64, then the bit
length as 8 big-endian bytes. -/
def sha256Pad (msg : List Nat) : List Nat :=
  msg ++ [0x80] ++ List.replicate ((119 - msg.length % 64) % 64) 0 ++ natToBytesBE 8 (8 * msg.length)

/-- Split a byte list into chunks of `sz` bytes (fuel-driven, structural). -/
def chunksAux (sz : Nat) : Nat → List Nat → List (List Nat)
  | 0, _ => []
  | _, [] => []
  | fuel + 1, l => l.take sz :: chunksAux sz fuel (l.drop sz)

/-- Group a byte list into big-endian 32-bit words (fuel-driven). -/
def bytesToWordsAux : Nat → List Nat → List Nat
  | 0, _ => []
  | _, [] => []
  | fuel + 1, l =>
    (l.getD 0 0 <<< 24 ||| l.getD 1 0 <<< 16 ||| l.getD 2 0 <<< 8 ||| l.getD 3 0)
      :: bytesToWordsAux fuel (l.drop 4)

/-- Big-endian 32-bit words of a byte list. -/
def bytesToWordsBE (l : List Nat) : List Nat := bytesToWordsAux l.length l

/-- Extend the 16 message words of one block to the 64-entry schedule. -/
def sha256Schedule (ws : List Nat) : List Nat :=
  (List.range 48).foldl
    (fun acc _ =>
      acc ++ [w32 (smallSig1 (acc.getD (acc.length - 2) 0) + acc.getD (acc.length - 7) 0
        + smallSig0 (acc.getD (acc.length - 15) 0) + acc.getD (acc.length - 16) 0)])
    ws

/-- One SHA-256 compression round on the 8-word working state. -/
def sha256Round (st : List Nat) (kw : Nat × Nat) : List Nat :=
  match st with
  | [a, b, c, d, e, f, g, h] =>
    let t1 := w32 (h + bigSig1 e + sha256Ch e f g + kw.1 + kw.2)
    let t2 := w32 (bigSig0 a + sha256Maj a b c)
    [w32 (t1 + t2), a, b, c, w32 (d + t1), e, f, g]
  | other => other

/-- Process one 64-byte block against the running hash state. -/
def sha256Block (H : List Nat) (block : List Nat) : List Nat :=
  let st := ((sha256K.zip (sha256Schedule (bytesToWordsBE block))).foldl sha256Round H)
  List.zipWith (fun x y => w32 (x + y)) H st

/-- SHA-256 of a byte list, as a 32-byte list (Go `crypto/sha256`). -/
def sha256 (msg : List Nat) : List Nat :=
  let padded := sha256Pad msg
  let final := (chunksAux 64 padded.length padded).foldl sha256Block sha256H0
  final.foldr (fun wd acc => natToBytesBE 4 wd ++ acc) []

/-! ## ECDSA key entity (package key, from the sample file's appended part) -/

/-- An elliptic curve as the SKI computation observes it: Go
`curve.Params().BitSize` is all `elliptic.Marshal` reads. -/
structure Curve where
  bitSize : Nat
deriving DecidableEq

/-- Go `elliptic.Marshal`: `0x04` followed by the two coordinates, each
big-endian in `(BitSize+7)/8` bytes (uncompressed point encoding). -/
def ellipticMarshal (curve : Curve) (x y : Nat) : List Nat :=
  4 :: (natToBytesBE ((curve.bitSize + 7) / 8) x ++ natToBytesBE ((curve.bitSize + 7) / 8) y)

/-- Go `ecdsa.PublicKey`: a curve plus the point coordinates. -/
structure GoEcdsaPublicKey where
  curve : Curve
  x : Nat
  y : Nat
deriving DecidableEq

/-- Go `ecdsa.PrivateKey`: embeds its `PublicKey` (so the private key's
`Curve`, `X`, `Y` are literally the embedded public key's) plus the
scalar `D`. -/
structure GoEcdsaPrivateKey where
  publicKey : GoEcdsaPublicKey
  d : Nat
deriving DecidableEq

/-- Source: `type ECDSAPrivateKey struct { PrivKey *ecdsa.PrivateKey }` —
the pointer may be nil, modelled with `Option`. -/
structure ECDSAPrivateKey where
  privKey : Option GoEcdsaPrivateKey
deriving DecidableEq

/-- Source: `type ECDSAPublicKey struct { PubKey *ecdsa.PublicKey }`. -/
structure ECDSAPublicKey where
  pubKey : Option GoEcdsaPublicKey
deriving DecidableEq

/-- Source `(key *ECDSAPrivateKey) SKI()`: nil receiver pointer gives nil;
otherwise SHA-256 of `elliptic.Marshal(Curve, PublicKey.X, PublicKey.Y)`. -/
def ECDSAPrivateKey.SKI (key : ECDSAPrivateKey) : Option (List Nat) :=
  match key.privKey with
  | none => none
  | some pk => some (sha256 (ellipticMarshal pk.publicKey.curve pk.publicKey.x pk.publicKey.y))

/-- Source `(key *ECDSAPrivateKey) PublicKey()`: wraps the embedded
`ecdsa.PublicKey`; dereferencing a nil `PrivKey` (a Go panic) is modelled
as `none`. -/
def ECDSAPrivateKey.PublicKey : ECDSAPrivateKey → Option ECDSAPublicKey
  | ⟨none⟩ => none
  | ⟨some pk⟩ => some ⟨some pk.publicKey⟩

/-- Source `(key *ECDSAPublicKey) SKI()`: nil pointer gives nil; otherwise
SHA-256 of `elliptic.Marshal(Curve, X, Y)`. -/
def ECDSAPublicKey.SKI (key : ECDSAPublicKey) : Option (List Nat) :=
  match key.pubKey with
  | none => none
  | some pk => some (sha256 (ellipticMarshal pk.curve pk.x pk.y))

/-- A sample concrete Go ECDSA private key used by witnesses. -/
def sampleGoPriKey : GoEcdsaPrivateKey := ⟨⟨⟨256⟩, 5, 7⟩, 9⟩

/-! ## Hex codec (Go encoding/hex, used by the keystore) -/

/-- The lowercase hex digits used by Go `encoding/hex`. -/
def hexDigits : List Char := "0123456789abcdef".data

/-- Go `hex.EncodeToString`: two lowercase hex digits per byte. -/
def hexEncodeToString (bs : List Nat) : String :=
  String.mk (bs.foldr
    (fun b acc => hexDigits.getD (b / 16 % 16) '0' :: hexDigits.getD (b % 16) '0' :: acc) [])

/-- Go `hex.DecodeString` on the underlying character list: fails on odd
length or on a non-hex digit. -/
def hexDecodeChars : List Char → Except String (List Nat)
  | [] => .ok []
  | [_] => .error "encoding hex odd length hex string"
  | c₁ :: c₂ :: rest =>
    match hexDigits.findIdx? (fun d => d = c₁), hexDigits.findIdx? (fun d => d = c₂) with
    | some hi, some lo => (hexDecodeChars rest).map (fun bs => (16 * hi + lo) :: bs)
    | _, _ => .error "encoding hex invalid byte"

/-- Go `hex.DecodeString`. -/
def hexDecodeString (s : String) : Except String (List Nat) := hexDecodeChars s.data

/-! ## Keystore data model (keystore/keystore.go) -/

/-- Source: `encryption.Opts` — `{Algorithm, KeyLen, OpMode}` (the record
shape is fixed by the fields `LoadKey` reads from the stored hints). -/
structure EncOpts where
  algorithm : String
  keyLen : Nat
  opMode : String
deriving DecidableEq

/-- Source: `kdf.Opts` — `{KdfName, KdfParams}` with string-map
parameters (the fields `LoadKey` reads from the stored hints). -/
structure KdfOpts where
  kdfName : String
  kdfParams : List (String × String)
deriving DecidableEq

/-- The view of the `heimdall.Key` interface that `keystore.go` uses:
`SKI()`, `ID()`, `KeyGenOpt()`, `IsPrivate()`, plus the key's raw
canonical byte encoding that the encryption engine consumes (the spec's
"private key's canonical byte encoding"). -/
structure Key where
  ski : List Nat
  id : String
  keyGenOpt : Int
  isPrivate : Bool
  material : List Nat
deriving DecidableEq

/-- Source: `type EncryptionHints struct { EncOpt; KDFOpt; KDFSalt }`. -/
structure EncryptionHints where
  encOpt : EncOpts
  kdfOpt : KdfOpts
  kdfSalt : List Nat
deriving DecidableEq

/-- Source: `type KeyFile struct { SKI; KeyGenOpt; IsPrivate;
EncryptedKey; Hints }` — `EncryptedKey` is the hex string. -/
structure KeyFile where
  ski : List Nat
  keyGenOpt : String
  isPrivate : Bool
  encryptedKey : String
  hints : EncryptionHints
deriving DecidableEq

/-! ### KeyFile serialization (model of encoding/json on this record) -/

/-- Length-prefixed byte-list encoding. -/
def encBytes (bs : List Nat) : List Nat := bs.length :: bs

/-- Length-prefixed string encoding. -/
def encStr (s : String) : List Nat := encBytes (s.data.map Char.toNat)

/-- Boolean encoding. -/
def encBool (b : Bool) : List Nat := [if b then 1 else 0]

/-- Count-prefixed encoding of the KDF parameter map. -/
def encPairs (ps : List (String × String)) : List Nat :=
  ps.length :: ps.foldr (fun p acc => encStr p.1 ++ encStr p.2 ++ acc) []

/-- Modelled from the spec: `json.Marshal` of the `KeyFile` record — the
spec only requires a structured, deterministic, reversible serialization
("serialize to a structured text format"), so a concrete injective
field-by-field encoding stands in for the JSON byte syntax. -/
def marshalKeyFile (kf : KeyFile) : List Nat :=
  encBytes kf.ski ++ encStr kf.keyGenOpt ++ encBool kf.isPrivate ++ encStr kf.encryptedKey
    ++ encStr kf.hints.encOpt.algorithm ++ [kf.hints.encOpt.keyLen] ++ encStr kf.hints.encOpt.opMode
    ++ encStr kf.hints.kdfOpt.kdfName ++ encPairs kf.hints.kdfOpt.kdfParams
    ++ encBytes kf.hints.kdfSalt

/-- Read one number from the serialized stream. -/
def readNat : List Nat → Except String (Nat × List Nat)
  | [] => .error "unmarshal - unexpected end"
  | n :: rest => .ok (n, rest)

/-- Read one length-prefixed byte list. -/
def readBytes (l : List Nat) : Except String (List Nat × List Nat) :=
  match readNat l with
  | .error e => .error e
  | .ok (n, rest) =>
    if n ≤ rest.length then .ok (rest.take n, rest.drop n) else .error "unmarshal - unexpected end"

/-- Read one length-prefixed string. -/
def readStr (l : List Nat) : Except String (String × List Nat) :=
  (readBytes l).map (fun p => (String.mk (p.1.map Char.ofNat), p.2))

/-- Read one boolean. -/
def readBool (l : List Nat) : Except String (Bool × List Nat) :=
  match readNat l with
  | .error e => .error e
  | .ok (0, rest) => .ok (false, rest)
  | .ok (1, rest) => .ok (true, rest)
  | .ok _ => .error "unmarshal - not a bool"

/-- Read `n` string pairs. -/
def readPairs : Nat → List Nat → Except String (List (String × String) × List Nat)
  | 0, l => .ok ([], l)
  | n + 1, l =>
    match readStr l with
    | .error e => .error e
    | .ok (a, l₁) =>
      match readStr l₁ with
      | .error e => .error e
      | .ok (b, l₂) =>
        match readPairs n l₂ with
        | .error e => .error e
        | .ok (ps, l₃) => .ok ((a, b) :: ps, l₃)

/-- Modelled from the spec: `json.Unmarshal` into the `KeyFile` record
(inverse of `marshalKeyFile`; fails on malformed structure, per the
spec's "Parse the stored record; fail on malformed structure"). -/
def unmarshalKeyFile (l : List Nat) : Except String KeyFile := do
  let (ski, l) ← readBytes l
  let (kgo, l) ← readStr l
  let (ipr, l) ← readBool l
  let (ek, l) ← readStr l
  let (alg, l) ← readStr l
  let (klen, l) ← readNat l
  let (om, l) ← readStr l
  let (kname, l) ← readStr l
  let (n, l) ← readNat l
  let (params, l) ← readPairs n l
  let (salt, l) ← readBytes l
  if l = [] then
    .ok ⟨ski, kgo, ipr, ek, ⟨⟨alg, klen, om⟩, ⟨kname, params⟩, salt⟩⟩
  else .error "unmarshal - trailing data"

/-! ### Key-ID helpers (package heimdall, not under src) -/

/-- Modelled from the spec: the key-ID format token — the spec's
"identifier derived from the SKI ... must satisfy a format/prefix check
before use" (`heimdall.KeyIDPrefix`). -/
def keyIDPrefixTok : String := "IT"

/-- Modelled from the spec: the identifier derived from the SKI — format
token followed by the hex encoding of the SKI. -/
def skiToKeyID (ski : List Nat) : String := keyIDPrefixTok ++ hexEncodeToString ski

/-- Modelled from the spec: `heimdall.KeyIDPrefixCheck` — the identifier's
format/prefix check performed before any file lookup. -/
def keyIDPrefixCheck (keyId : String) : Except String Unit :=
  if keyId.data.take keyIDPrefixTok.data.length = keyIDPrefixTok.data then .ok ()
  else .error "invalid key ID - wrong format prefix"

/-- Modelled from the spec: `heimdall.SKIValidCheck` — cross-check of the
record's SKI field against the identifier's expected relationship
(defense against a mismatched/renamed file); note it never looks at the
decrypted key. -/
def skiValidCheck (keyId : String) (ski : List Nat) : Except String Unit :=
  if skiToKeyID ski = keyId then .ok () else .error "invalid SKI - SKI does not match key ID"

/-! ### Keystore state and environment -/

/-- The file-system and randomness state the keystore touches: the set of
existing directories, the files as `((directory, name), content)` pairs
(`filepath.Join` is modelled by the pair), and the stream of bytes the
cryptographically secure source will produce (`crypto/rand`). -/
structure KeystoreState where
  dirs : List String
  files : List ((String × String) × List Nat)
  rand : List Nat
deriving DecidableEq

/-- Content of the file at `(dir, name)`, when it exists. -/
def lookupFile (st : KeystoreState) (dir name : String) : Option (List Nat) :=
  (st.files.find? (fun f => decide (f.1 = (dir, name)))).map (fun f => f.2)

/-- Modelled from the spec: the keystore's collaborators that live outside
the analysed sources — the key-derivation engine (`kdf.DeriveKey`,
deterministic, §4.3), the encryption engine (`encryption.EncryptKey` /
`DecryptKey`, §4.4), the recoverer handed to `LoadKey`
(`heimdall.KeyRecoverer`, §4.2), and the option-record constructors
(`kdf.NewOpts`, `encryption.NewOpts`). -/
structure KeystoreEnv where
  deriveKey : String → List Nat → Nat → KdfOpts → Except String (List Nat)
  encryptKey : Key → List Nat → EncOpts → Except String (List Nat)
  decryptKey : List Nat → List Nat → EncOpts → Except String (List Nat)
  recoverKeyFromByte : List Nat → Bool → Except String Key
  kdfNewOpts : String → List (String × String) → Except String KdfOpts
  encNewOpts : String → Nat → String → Except String EncOpts

/-- Source: `var ErrInvalidKeyGenOpt`. -/
def ErrInvalidKeyGenOpt : String := "invalid ECDSA key generation option - not supported curve"

/-- Source: `var ErrWrongKeyID`. -/
def ErrWrongKeyID : String := "wrong key id - failed to find key using key ID"

/-- Source: `var ErrEmptyKeyPath`. -/
def ErrEmptyKeyPath : String := "invalid keyPath - keyPath empty"

/-- The `os.Stat`/`os.IsNotExist` error `LoadKey` returns for a missing
key directory. -/
def ErrKeyDirNotExist : String := "stat keyDirPath - no such file or directory"

/-- Source `makeKeyFilePath`: `MkdirAll` the directory when absent, then
`filepath.Join(keyDirPath, keyFileName)`. -/
def makeKeyFilePath (keyFileName keyDirPath : String) (st : KeystoreState) :
    (String × String) × KeystoreState :=
  let st₁ := if keyDirPath ∈ st.dirs then st else { st with dirs := keyDirPath :: st.dirs }
  ((keyDirPath, keyFileName), st₁)

/-- Source `makeEncryptionHints`. -/
def makeEncryptionHints (encOpt : EncOpts) (kdfOpt : KdfOpts) (kdfSalt : List Nat) :
    EncryptionHints :=
  ⟨encOpt, kdfOpt, kdfSalt⟩

/-- Source `makeJsonKeyFile`: builds the `KeyFile` record — SKI, the
option's string form, the private flag, the hex ciphertext, the hints —
and marshals it. -/
def makeJsonKeyFile (encHints : EncryptionHints) (ski : List Nat) (keyGenOpt : Int)
    (encryptedKeyBytes : List Nat) (isPrivate : Bool) : List Nat :=
  marshalKeyFile
    ⟨ski, keyGenOptsString keyGenOpt, isPrivate, hexEncodeToString encryptedKeyBytes, encHints⟩

/-- Source `StoreKey` (keystore/keystore.go:58-103), step by step:
read SKI/ID/option off the key; fail `ErrInvalidKeyGenOpt` on an invalid
option; make the file path (creating the directory); draw the fresh
8-byte salt from the random source; derive the symmetric key; encrypt;
assemble the hints and the serialized key file; finally write it only if
no file exists at the path (`os.Stat` + `os.IsNotExist` guard). -/
def StoreKey (env : KeystoreEnv) (key : Key) (pwd : String) (keyDirPath : String)
    (encOpt : EncOpts) (kdfOpt : KdfOpts) (st : KeystoreState) :
    Except String Unit × KeystoreState :=
  let ski := key.ski
  let keyId := key.id
  let keyGenOpt := key.keyGenOpt
  if ¬ validCheck keyGenOpt then (.error ErrInvalidKeyGenOpt, st)
  else
    let pathAndSt := makeKeyFilePath keyId keyDirPath st
    let keyFilePath := pathAndSt.1
    let st₁ := pathAndSt.2
    if st₁.rand.length < 8 then (.error "rand read failed", st₁)
    else
      let salt := st₁.rand.take 8
      let st₂ : KeystoreState := { st₁ with rand := st₁.rand.drop 8 }
      match env.deriveKey pwd salt encOpt.keyLen kdfOpt with
      | .error e => (.error e, st₂)
      | .ok dKey =>
        match env.encryptKey key dKey encOpt with
        | .error e => (.error e, st₂)
        | .ok encryptedKeyBytes =>
          let encHints := makeEncryptionHints encOpt kdfOpt salt
          let jsonKeyFile := makeJsonKeyFile encHints ski keyGenOpt encryptedKeyBytes key.isPrivate
          if (lookupFile st₂ keyFilePath.1 keyFilePath.2).isSome then (.ok (), st₂)
          else (.ok (), { st₂ with files := (keyFilePath, jsonKeyFile) :: st₂.files })

/-- Source `findKeyById`: `ioutil.ReadDir` then scan for a file whose name
equals the key ID; `ErrWrongKeyID` when none matches. -/
def findKeyById (keyId : String) (keyDirPath : String) (st : KeystoreState) :
    Except String (String × String) :=
  if keyDirPath ∈ st.dirs then
    match st.files.find? (fun f => decide (f.1.1 = keyDirPath ∧ f.1.2 = keyId)) with
    | some f => .ok f.1
    | none => .error ErrWrongKeyID
  else .error "read dir failed - no such directory"

/-- Source `loadJsonKeyFile`: empty-path guard, then `ioutil.ReadFile`. -/
def loadJsonKeyFile (keyPath : String × String) (st : KeystoreState) :
    Except String (List Nat) :=
  if keyPath.1 = "" ∧ keyPath.2 = "" then .error ErrEmptyKeyPath
  else
    match lookupFile st keyPath.1 keyPath.2 with
    | some content => .ok content
    | none => .error "read file failed - no such file"

/-- Source `LoadKey` (keystore/keystore.go:139-199), step by step: fail on
a missing key directory; check the ID's format prefix; find the file by
ID; read it; unmarshal the record; cross-check the record's SKI against
the ID; rebuild the KDF and encryption option records from the hints;
re-derive the symmetric key from the password and the stored salt;
hex-decode and decrypt the ciphertext; hand the bytes to the recoverer.
Note there is no comparison between the stored SKI and an SKI recomputed
from the recovered key. -/
def LoadKey (env : KeystoreEnv) (keyId : String) (pwd : String) (keyDirPath : String)
    (st : KeystoreState) : Except String Key :=
  if keyDirPath ∈ st.dirs then
    match keyIDPrefixCheck keyId with
    | .error e => .error e
    | .ok _ =>
      match findKeyById keyId keyDirPath st with
      | .error e => .error e
      | .ok keyPath =>
        match loadJsonKeyFile keyPath st with
        | .error e => .error e
        | .ok jsonKeyFile =>
          match unmarshalKeyFile jsonKeyFile with
          | .error e => .error e
          | .ok keyFile =>
            match skiValidCheck keyId keyFile.ski with
            | .error e => .error e
            | .ok _ =>
              match env.kdfNewOpts keyFile.hints.kdfOpt.kdfName keyFile.hints.kdfOpt.kdfParams with
              | .error e => .error e
              | .ok kdfOpt =>
                match env.encNewOpts keyFile.hints.encOpt.algorithm keyFile.hints.encOpt.keyLen
                    keyFile.hints.encOpt.opMode with
                | .error e => .error e
                | .ok encOpt =>
                  match env.deriveKey pwd keyFile.hints.kdfSalt encOpt.keyLen kdfOpt with
                  | .error e => .error e
                  | .ok dKey =>
                    match hexDecodeString keyFile.encryptedKey with
                    | .error e => .error e
                    | .ok encryptedKeyBytes =>
                      match env.decryptKey encryptedKeyBytes dKey encOpt with
                      | .error e => .error e
                      | .ok keyBytes => env.recoverKeyFromByte keyBytes keyFile.isPrivate
  else .error ErrKeyDirNotExist

/-! ## Key manager (key/keyManagerImpl.go) -/

/-- The `key` package's key-generation option values: `NewKeyManager`
registers generators for exactly seven options; any other option value is
unregistered (absent from the `generators` map). -/
inductive KMOpts where
  | rsa1024
  | rsa2048
  | rsa4096
  | ecdsa224
  | ecdsa256
  | ecdsa384
  | ecdsa521
  | unregistered (tag : Nat)
deriving DecidableEq

/-- An opaque key value produced by a generator of the `key` package. -/
structure KMKey where
  tag : Nat
deriving DecidableEq

/-- The `found` result of `km.generators[opts]` for the map built by
`NewKeyManager` (entries for the seven registered options only). -/
def generatorsFound (opts : KMOpts) : Bool :=
  match opts with
  | .unregistered _ => false
  | _ => true

/-- Modelled from the spec: the key manager's collaborators that live
outside the analysed sources — the per-option `keyGenerator.Generate`
(which draws entropy and yields a pair) and `keyStorer.Store` (which
persists the pair under the manager's path, transforming the on-disk
state). -/
structure KMEnv where
  generate : KMOpts → Except String (KMKey × KMKey)
  store : KMKey → KMKey → List (String × List Nat) → Except String (List (String × List Nat))

/-- Source: `type keyManagerImpl struct` — the cached pair (nil-able Go
interface values) and the manager's directory path; `generators`,
`loader` and `storer` are modelled by `generatorsFound` / `KMEnv`. -/
structure KeyManagerImpl where
  priKey : Option KMKey
  pubKey : Option KMKey
  path : String
deriving DecidableEq

/-- Source `removeKey`: `os.RemoveAll(km.path)` — every file whose path
lies under the manager's path is deleted (modelled as always
succeeding). -/
def removeAllUnder (path : String) (files : List (String × List Nat)) : List (String × List Nat) :=
  files.filter (fun f => ! path.isPrefixOf f.1)

/-- Source `GenerateKey` (key/keyManagerImpl.go:52-81): FIRST removes the
whole on-disk directory (`km.removeKey()`), THEN rejects a nil option,
then an option absent from the generators map, then generates, stores,
caches the pair in the manager — and returns `nil, nil, nil`.  The Go
`opts KeyGenOpts` interface value is `Option KMOpts` (`none` = nil).
Result: `((pri, pub, err), manager, files)`. -/
def GenerateKey (env : KMEnv) (km : KeyManagerImpl) (fs : List (String × List Nat))
    (opts : Option KMOpts) :
    (Option KMKey × Option KMKey × Option String) × KeyManagerImpl × List (String × List Nat) :=
  let fs₁ := removeAllUnder km.path fs
  match opts with
  | none => ((none, none, some "Invalid KeyGen Options"), km, fs₁)
  | some o =>
    if ¬ generatorsFound o then ((none, none, some "Invalid KeyGen Options"), km, fs₁)
    else
      match env.generate o with
      | .error _ => ((none, none, some "Failed to generate a Key"), km, fs₁)
      | .ok (pri, pub) =>
        match env.store pri pub fs₁ with
        | .error _ => ((none, none, some "Failed to store a Key"), km, fs₁)
        | .ok fs₂ => ((none, none, none), { km with priKey := some pri, pubKey := some pub }, fs₂)

/-- Source `GetKey` (key/keyManagerImpl.go:83-96): when either cached key
is nil, call the loader and cache its result; otherwise answer from the
cache without I/O.  `loadFn` stands for `km.loader.Load()`. -/
def GetKey (loadFn : Except String (KMKey × KMKey)) (km : KeyManagerImpl) :
    (Option KMKey × Option KMKey × Option String) × KeyManagerImpl :=
  match km.priKey, km.pubKey with
  | some pri, some pub => ((some pri, some pub, none), km)
  | _, _ =>
    match loadFn with
    | .error e => ((none, none, some e), km)
    | .ok (pri, pub) =>
      ((some pri, some pub, none), { km with priKey := some pri, pubKey := some pub })

/-! ## Concrete instances used by witnesses and counterexamples -/

/-- A toy one-byte digest over raw key bytes, standing in for the SKI an
algorithm recoverer computes from recovered key material. -/
def toySKIOf (bs : List Nat) : List Nat := [bs.foldl (fun a b => a + b) 0 % 256]

/-- Modelled from the spec: a deterministic password-based KDF producing
exactly `keyLen` bytes (§4.3) — a toy instance (password bytes, then
salt, truncated) exercising the keystore pipeline. -/
def toyDeriveKey (pwd : String) (salt : List Nat) (keyLen : Nat) (_ : KdfOpts) :
    Except String (List Nat) :=
  .ok ((pwd.data.map Char.toNat ++ salt ++ List.replicate keyLen 0).take keyLen)

/-- XOR of a byte list with a cyclically repeated key stream — the CTR
shape of §4.4: same operation encrypts and decrypts, and it never
fails. -/
def xorCycle (data keyBytes : List Nat) : List Nat :=
  (List.range data.length).map
    (fun i => Nat.xor (data.getD i 0) (keyBytes.getD (i % keyBytes.length) 0))

/-- Modelled from the spec: a key recoverer (§4.2 `Recover`) for a toy
algebra in which the structurally valid canonical key encodings are
exactly the 3-byte strings; recovery rebuilds the key and its SKI from
the raw bytes. -/
def toyRecover (bs : List Nat) (isPriv : Bool) : Except String Key :=
  if bs.length = 3 then
    .ok ⟨toySKIOf bs, skiToKeyID (toySKIOf bs), ECDSA256, isPriv, bs⟩
  else .error "failed to recover key - invalid key bytes"

/-- Modelled from the spec: a concrete `KeystoreEnv` — toy KDF, XOR
stream cipher in both directions, the toy recoverer, and option
constructors that validate nothing. -/
def toyEnv : KeystoreEnv :=
  { deriveKey := toyDeriveKey
    encryptKey := fun key dKey _ => .ok (xorCycle key.material dKey)
    decryptKey := fun c dKey _ => .ok (xorCycle c dKey)
    recoverKeyFromByte := toyRecover
    kdfNewOpts := fun n p => .ok ⟨n, p⟩
    encNewOpts := fun a k m => .ok ⟨a, k, m⟩ }

/-- A concrete key: raw material `[1, 2, 3]`, SKI `[6]` (its toy digest),
identifier `"IT06"`, option `ECDSA256`, private. -/
def sampleKey : Key :=
  ⟨toySKIOf [1, 2, 3], skiToKeyID (toySKIOf [1, 2, 3]), ECDSA256, true, [1, 2, 3]⟩

/-- Concrete encryption options (2-byte derived key). -/
def sampleEncOpt : EncOpts := ⟨"AES", 2, "CTR"⟩

/-- Concrete KDF options. -/
def sampleKdfOpt : KdfOpts := ⟨"scrypt", []⟩

/-- An initial state: no directories, no files, 8 bytes of randomness. -/
def sampleState : KeystoreState := ⟨[], [], [10, 11, 12, 13, 14, 15, 16, 17]⟩

/-- The state after storing `sampleKey` under password `"aa"`. -/
def storedState : KeystoreState :=
  (StoreKey toyEnv sampleKey "aa" "keys" sampleEncOpt sampleKdfOpt sampleState).2

/-- A key whose generation option value `8` is out of range (invalid). -/
def badOptKey : Key := ⟨[6], "IT06", 8, true, [1, 2, 3]⟩

/-- A state in which a file already exists at the path computed from
`sampleKey`'s identifier. -/
def existingFileState : KeystoreState :=
  ⟨["keys"], [(("keys", "IT06"), [9, 9, 9])], [10, 11, 12, 13, 14, 15, 16, 17]⟩

/-- A toy key-manager environment: generation yields the pair
`(⟨1⟩, ⟨2⟩)` and the storer succeeds leaving the files unchanged. -/
def toyKMEnv : KMEnv :=
  { generate := fun _ => .ok (⟨1⟩, ⟨2⟩)
    store := fun _ _ fs => .ok fs }

/-- A fresh key manager over directory `"kmdir"` with an empty cache. -/
def sampleKM : KeyManagerImpl := ⟨none, none, "kmdir"⟩

/-- On-disk files before a `GenerateKey` call: one file under the
manager's directory, one outside it. -/
def sampleManagedFiles : List (String × List Nat) :=
  [("kmdir/key1", [1, 2]), ("other/keep", [3])]

/-! ## Theorems -/

/-- Helper: the scan loop of `StringToKeyGenOpts` misses every string that
is not in the scanned list. -/
theorem findOptIdx_eq_none (l : List String) (idx : Nat) (raw : String) (h : raw ∉ l) :
    findOptIdx l idx raw = none := by
  induction l generalizing idx with
  | nil => rfl
  | cons o rest ih =>
    simp only [List.mem_cons, not_or] at h
    simp [findOptIdx, h.1, ih _ h.2]

/-- C3: for every defined KeyGenOpts value (RSA1024, RSA2048, RSA4096,
ECDSA224, ECDSA256, ECDSA384, ECDSA521), `StringToKeyGenOpts` applied to
the option's `String()` form returns exactly that option with a nil
error — the string codec round-trips on the defined option set. -/
theorem stringToKeyGenOpts_roundtrip :
    stringToKeyGenOpts (keyGenOptsString RSA1024) = (RSA1024, none)
    ∧ stringToKeyGenOpts (keyGenOptsString RSA2048) = (RSA2048, none)
    ∧ stringToKeyGenOpts (keyGenOptsString RSA4096) = (RSA4096, none)
    ∧ stringToKeyGenOpts (keyGenOptsString ECDSA224) = (ECDSA224, none)
    ∧ stringToKeyGenOpts (keyGenOptsString ECDSA256) = (ECDSA256, none)
    ∧ stringToKeyGenOpts (keyGenOptsString ECDSA384) = (ECDSA384, none)
    ∧ stringToKeyGenOpts (keyGenOptsString ECDSA521) = (ECDSA521, none) := by
  decide

/-- C4 counterexample: the string `"unknown_keyGenOpt"` is not the
canonical token of any of the seven defined options, yet
`StringToKeyGenOpts` returns `UNKNOWN_KEYGENOPT` with a NIL error for it
(it is the eighth entry of `optsArr`, so the scan loop accepts it) —
refuting the claim that every such string yields a non-nil error. -/
theorem stringToKeyGenOpts_unknown_token_cex :
    "unknown_keyGenOpt" ∉ optsArr.take 7
    ∧ stringToKeyGenOpts "unknown_keyGenOpt" = (UNKNOWN_KEYGENOPT, none) := by
  decide

/-- C4 amended: for every string that is not an entry of `optsArr` (the
seven canonical tokens AND the eighth entry `"unknown_keyGenOpt"`),
`StringToKeyGenOpts` returns the distinguished `UNKNOWN_KEYGENOPT` value
together with a non-nil error. -/
theorem stringToKeyGenOpts_not_in_arr (s : String) (h : s ∉ optsArr) :
    stringToKeyGenOpts s
      = (UNKNOWN_KEYGENOPT, some "no such key generation option in option list") := by
  simp [stringToKeyGenOpts, findOptIdx_eq_none optsArr 0 s h]

/-- Witness for the amended C4 theorem at the concrete input
`"not-a-real-option"`. -/
theorem stringToKeyGenOpts_not_in_arr_witness :
    "not-a-real-option" ∉ optsArr
    ∧ stringToKeyGenOpts "not-a-real-option"
        = (UNKNOWN_KEYGENOPT, some "no such key generation option in option list") :=
  ⟨by decide, stringToKeyGenOpts_not_in_arr "not-a-real-option" (by decide)⟩

/-- C5 counterexample: `UNKNOWN_KEYGENOPT` is none of the seven defined
options, yet `ValidCheck` returns TRUE for it (the check only demands
`0 ≤ opts < len(optsArr)` and `optsArr` has eight entries) — refuting the
claim that `ValidCheck` returns false for `UNKNOWN_KEYGENOPT`. -/
theorem validCheck_unknown_cex :
    UNKNOWN_KEYGENOPT ∉ [RSA1024, RSA2048, RSA4096, ECDSA224, ECDSA256, ECDSA384, ECDSA521]
    ∧ validCheck UNKNOWN_KEYGENOPT = true := by
  decide

/-- C5 amended: `ValidCheck` returns true exactly for the integer values
`0..7`, i.e. for the seven defined options AND for `UNKNOWN_KEYGENOPT`;
it returns false precisely for every negative value and every value at
least 8. -/
theorem validCheck_iff (opts : Int) :
    validCheck opts = true ↔ 0 ≤ opts ∧ opts < 8 := by
  have hlen : (optsArr.length : Int) = 8 := rfl
  unfold validCheck
  rw [hlen]
  split
  · rename_i h
    constructor
    · intro hf; exact absurd hf (by decide)
    · intro hc; rcases h with h | h <;> omega
  · rename_i h
    rw [not_or] at h
    obtain ⟨h₁, h₂⟩ := h
    constructor
    · intro _; constructor <;> omega
    · intro _; rfl

/-- Witness for the amended C5 theorem at the concrete input `5`. -/
theorem validCheck_iff_witness :
    validCheck 5 = true ↔ 0 ≤ (5 : Int) ∧ (5 : Int) < 8 :=
  validCheck_iff 5

/-- C6: the ECDSA SKI is a pure function of the public coordinates —
`PublicKey()` of a (non-nil) private key wraps exactly the embedded
public half; the public half's `SKI()` equals the private key's `SKI()`;
both equal the SHA-256 digest of the uncompressed curve-point encoding
(`elliptic.Marshal`) of the public X, Y coordinates; and any two private
keys with identical public material have identical SKI. -/
theorem ecdsa_ski_pure (pk pk₂ : GoEcdsaPrivateKey) (h : pk.publicKey = pk₂.publicKey) :
    ECDSAPrivateKey.PublicKey ⟨some pk⟩ = some ⟨some pk.publicKey⟩
    ∧ ECDSAPublicKey.SKI ⟨some pk.publicKey⟩ = ECDSAPrivateKey.SKI ⟨some pk⟩
    ∧ ECDSAPrivateKey.SKI ⟨some pk⟩
        = some (sha256 (ellipticMarshal pk.publicKey.curve pk.publicKey.x pk.publicKey.y))
    ∧ ECDSAPrivateKey.SKI ⟨some pk⟩ = ECDSAPrivateKey.SKI ⟨some pk₂⟩ := by
  refine ⟨rfl, rfl, rfl, ?_⟩
  simp [ECDSAPrivateKey.SKI, h]

/-- Witness for the C6 theorem at a concrete key pair. -/
theorem ecdsa_ski_pure_witness :
    sampleGoPriKey.publicKey = sampleGoPriKey.publicKey
    ∧ (ECDSAPrivateKey.PublicKey ⟨some sampleGoPriKey⟩ = some ⟨some sampleGoPriKey.publicKey⟩
       ∧ ECDSAPublicKey.SKI ⟨some sampleGoPriKey.publicKey⟩
           = ECDSAPrivateKey.SKI ⟨some sampleGoPriKey⟩
       ∧ ECDSAPrivateKey.SKI ⟨some sampleGoPriKey⟩
           = some (sha256 (ellipticMarshal sampleGoPriKey.publicKey.curve
               sampleGoPriKey.publicKey.x sampleGoPriKey.publicKey.y))
       ∧ ECDSAPrivateKey.SKI ⟨some sampleGoPriKey⟩
           = ECDSAPrivateKey.SKI ⟨some sampleGoPriKey⟩) :=
  ⟨rfl, ecdsa_ski_pure sampleGoPriKey sampleGoPriKey rfl⟩

/-- C7: when the key's generation option is invalid, `StoreKey` fails with
`ErrInvalidKeyGenOpt` and returns the state COMPLETELY unchanged: the
random stream is untouched (no salt drawn), no directory is created and
no file is written — the validity check short-circuits the whole
pipeline. -/
theorem storeKey_invalid_opt_no_effect (env : KeystoreEnv) (key : Key) (pwd keyDirPath : String)
    (encOpt : EncOpts) (kdfOpt : KdfOpts) (st : KeystoreState)
    (h : validCheck key.keyGenOpt = false) :
    StoreKey env key pwd keyDirPath encOpt kdfOpt st = (.error ErrInvalidKeyGenOpt, st) := by
  simp [StoreKey, h]

/-- Witness for the C7 theorem: the out-of-range option value `8`. -/
theorem storeKey_invalid_opt_no_effect_witness :
    validCheck badOptKey.keyGenOpt = false
    ∧ StoreKey toyEnv badOptKey "pw" "keys" sampleEncOpt sampleKdfOpt sampleState
        = (.error ErrInvalidKeyGenOpt, sampleState) :=
  ⟨by decide,
   storeKey_invalid_opt_no_effect toyEnv badOptKey "pw" "keys" sampleEncOpt sampleKdfOpt
     sampleState (by decide)⟩

/-- C8: `LoadKey` against a nonexistent key directory fails with the stat
error `ErrKeyDirNotExist` — for EVERY identifier (well-formed or not) and
every file population, so the outcome precedes and is independent of the
identifier format check and of any directory scan or file read. -/
theorem loadKey_missing_dir_fails (env : KeystoreEnv) (keyId pwd keyDirPath : String)
    (st : KeystoreState) (h : keyDirPath ∉ st.dirs) :
    LoadKey env keyId pwd keyDirPath st = .error ErrKeyDirNotExist := by
  simp [LoadKey, h]

/-- Witness for the C8 theorem: a missing directory with an identifier
that would even fail the format check. -/
theorem loadKey_missing_dir_fails_witness :
    "no-such-dir" ∉ sampleState.dirs
    ∧ LoadKey toyEnv "###not-a-key-id" "pw" "no-such-dir" sampleState
        = .error ErrKeyDirNotExist :=
  ⟨by decide,
   loadKey_missing_dir_fails toyEnv "###not-a-key-id" "pw" "no-such-dir" sampleState (by decide)⟩

/-- C1 counterexample: store `sampleKey` (SKI field `[6]`) under password
`"aa"`, then load with the DIFFERENT password `"ab"`: CTR-style
decryption succeeds on the wrong derived key, the recoverer accepts the
wrongly decrypted bytes `[1, 1, 3]`, and `LoadKey` RETURNS A KEY — no
IntegrityMismatch, no DecryptionFailure — whose recomputed SKI `[5]`
differs from the `KeyFile`'s stored SKI field `[6]`: the cited `LoadKey`
never compares the stored SKI with an SKI recomputed from the decrypted
key. -/
theorem loadKey_wrong_password_returns_key_cex :
    (StoreKey toyEnv sampleKey "aa" "keys" sampleEncOpt sampleKdfOpt sampleState).1 = .ok ()
    ∧ LoadKey toyEnv sampleKey.id "ab" "keys" storedState
        = .ok ⟨toySKIOf [1, 1, 3], skiToKeyID (toySKIOf [1, 1, 3]), ECDSA256, true, [1, 1, 3]⟩
    ∧ toySKIOf [1, 1, 3] = [5]
    ∧ sampleKey.ski = [6]
    ∧ toySKIOf [1, 1, 3] ≠ sampleKey.ski :=
  ⟨rfl, rfl, rfl, rfl, by decide⟩

/-- C1 amended: a successful `LoadKey` is exactly the composition of the
directory check, the ID prefix check, the by-ID file scan, the record
parse, the stored-SKI-vs-identifier cross-check, the option
reconstruction, the re-derivation from the supplied password and stored
salt, hex decode, decryption, and recovery — the returned key is
precisely the recoverer's output, and no comparison between the stored
SKI field and an SKI recomputed from the decrypted key is ever
performed. -/
theorem loadKey_ok_shape (env : KeystoreEnv) (keyId pwd keyDirPath : String)
    (st : KeystoreState) (k : Key)
    (h : LoadKey env keyId pwd keyDirPath st = .ok k) :
    keyDirPath ∈ st.dirs
    ∧ keyIDPrefixCheck keyId = .ok ()
    ∧ ∃ keyPath jsonKeyFile keyFile kdfOpt encOpt dKey encryptedKeyBytes keyBytes,
        findKeyById keyId keyDirPath st = .ok keyPath
        ∧ loadJsonKeyFile keyPath st = .ok jsonKeyFile
        ∧ unmarshalKeyFile jsonKeyFile = .ok keyFile
        ∧ skiValidCheck keyId keyFile.ski = .ok ()
        ∧ env.kdfNewOpts keyFile.hints.kdfOpt.kdfName keyFile.hints.kdfOpt.kdfParams = .ok kdfOpt
        ∧ env.encNewOpts keyFile.hints.encOpt.algorithm keyFile.hints.encOpt.keyLen
            keyFile.hints.encOpt.opMode = .ok encOpt
        ∧ env.deriveKey pwd keyFile.hints.kdfSalt encOpt.keyLen kdfOpt = .ok dKey
        ∧ hexDecodeString keyFile.encryptedKey = .ok encryptedKeyBytes
        ∧ env.decryptKey encryptedKeyBytes dKey encOpt = .ok keyBytes
        ∧ env.recoverKeyFromByte keyBytes keyFile.isPrivate = .ok k := by
  unfold LoadKey at h
  by_cases hdir : keyDirPath ∈ st.dirs
  case neg => rw [if_neg hdir] at h; exact Except.noConfusion h
  rw [if_pos hdir] at h
  refine ⟨hdir, ?_⟩
  cases hpc : keyIDPrefixCheck keyId with
  | error e => simp only [hpc] at h; exact Except.noConfusion h
  | ok u =>
    cases u
    simp only [hpc] at h
    refine ⟨rfl, ?_⟩
    cases hfind : findKeyById keyId keyDirPath st with
    | error e => simp only [hfind] at h; exact Except.noConfusion h
    | ok keyPath =>
      simp only [hfind] at h
      cases hload : loadJsonKeyFile keyPath st with
      | error e => simp only [hload] at h; exact Except.noConfusion h
      | ok jsonKeyFile =>
        simp only [hload] at h
        cases hum : unmarshalKeyFile jsonKeyFile with
        | error e => simp only [hum] at h; exact Except.noConfusion h
        | ok keyFile =>
          simp only [hum] at h
          cases hski : skiValidCheck keyId keyFile.ski with
          | error e => simp only [hski] at h; exact Except.noConfusion h
          | ok u₂ =>
            cases u₂
            simp only [hski] at h
            cases hkdf : env.kdfNewOpts keyFile.hints.kdfOpt.kdfName
                keyFile.hints.kdfOpt.kdfParams with
            | error e => simp only [hkdf] at h; exact Except.noConfusion h
            | ok kdfOpt =>
              simp only [hkdf] at h
              cases henc : env.encNewOpts keyFile.hints.encOpt.algorithm
                  keyFile.hints.encOpt.keyLen keyFile.hints.encOpt.opMode with
              | error e => simp only [henc] at h; exact Except.noConfusion h
              | ok encOpt =>
                simp only [henc] at h
                cases hdk : env.deriveKey pwd keyFile.hints.kdfSalt encOpt.keyLen kdfOpt with
                | error e => simp only [hdk] at h; exact Except.noConfusion h
                | ok dKey =>
                  simp only [hdk] at h
                  cases hhex : hexDecodeString keyFile.encryptedKey with
                  | error e => simp only [hhex] at h; exact Except.noConfusion h
                  | ok encryptedKeyBytes =>
                    simp only [hhex] at h
                    cases hdec : env.decryptKey encryptedKeyBytes dKey encOpt with
                    | error e => simp only [hdec] at h; exact Except.noConfusion h
                    | ok keyBytes =>
                      simp only [hdec] at h
                      exact ⟨keyPath, jsonKeyFile, keyFile, kdfOpt, encOpt, dKey,
                        encryptedKeyBytes, keyBytes, rfl, hload, hum, hski, hkdf, henc,
                        hdk, hhex, hdec, h⟩

/-- Witness for the amended C1 theorem: the successful load of
`sampleKey` with the CORRECT password `"aa"`. -/
theorem loadKey_ok_shape_witness :
    LoadKey toyEnv sampleKey.id "aa" "keys" storedState = .ok sampleKey
    ∧ ("keys" ∈ storedState.dirs
       ∧ keyIDPrefixCheck sampleKey.id = .ok ()
       ∧ ∃ keyPath jsonKeyFile keyFile kdfOpt encOpt dKey encryptedKeyBytes keyBytes,
           findKeyById sampleKey.id "keys" storedState = .ok keyPath
           ∧ loadJsonKeyFile keyPath storedState = .ok jsonKeyFile
           ∧ unmarshalKeyFile jsonKeyFile = .ok keyFile
           ∧ skiValidCheck sampleKey.id keyFile.ski = .ok ()
           ∧ toyEnv.kdfNewOpts keyFile.hints.kdfOpt.kdfName keyFile.hints.kdfOpt.kdfParams
               = .ok kdfOpt
           ∧ toyEnv.encNewOpts keyFile.hints.encOpt.algorithm keyFile.hints.encOpt.keyLen
               keyFile.hints.encOpt.opMode = .ok encOpt
           ∧ toyEnv.deriveKey "aa" keyFile.hints.kdfSalt encOpt.keyLen kdfOpt = .ok dKey
           ∧ hexDecodeString keyFile.encryptedKey = .ok encryptedKeyBytes
           ∧ toyEnv.decryptKey encryptedKeyBytes dKey encOpt = .ok keyBytes
           ∧ toyEnv.recoverKeyFromByte keyBytes keyFile.isPrivate = .ok sampleKey) :=
  ⟨rfl, loadKey_ok_shape toyEnv sampleKey.id "aa" "keys" storedState sampleKey rfl⟩

/-- Helper: `makeKeyFilePath` returns the joined path and only ever
creates the directory — files and randomness are untouched. -/
theorem makeKeyFilePath_spec (name dir : String) (st : KeystoreState) :
    (makeKeyFilePath name dir st).1 = (dir, name)
    ∧ (makeKeyFilePath name dir st).2.files = st.files
    ∧ (makeKeyFilePath name dir st).2.rand = st.rand := by
  by_cases hd : dir ∈ st.dirs <;> simp [makeKeyFilePath, hd]

/-- C2 counterexample: with a file already present at the path computed
from the key's identifier, `StoreKey` on a key whose generation option is
invalid (value 8) returns a NON-NIL error (`ErrInvalidKeyGenOpt`) — while
leaving the file unchanged — refuting the claim's "returns no error" for
every key and options. -/
theorem storeKey_existing_file_error_cex :
    lookupFile existingFileState "keys" badOptKey.id = some [9, 9, 9]
    ∧ (StoreKey toyEnv badOptKey "pw" "keys" sampleEncOpt sampleKdfOpt existingFileState).1
        = .error ErrInvalidKeyGenOpt
    ∧ lookupFile (StoreKey toyEnv badOptKey "pw" "keys" sampleEncOpt sampleKdfOpt
        existingFileState).2 "keys" badOptKey.id = some [9, 9, 9] :=
  ⟨rfl, rfl, rfl⟩

/-- C2 amended: when a file already exists at the path computed from the
key's identifier, and the earlier pipeline steps can succeed (valid
generation option, at least 8 bytes of randomness, successful derivation
and encryption), `StoreKey` returns no error and leaves the whole file
population — in particular that file, byte for byte — unchanged; hence a
second `StoreKey` for the same identifier leaves the file from the first
call untouched. -/
theorem storeKey_nonclobber (env : KeystoreEnv) (key : Key) (pwd keyDirPath : String)
    (encOpt : EncOpts) (kdfOpt : KdfOpts) (st : KeystoreState) (c dKey encBytes : List Nat)
    (hfile : lookupFile st keyDirPath key.id = some c)
    (hvalid : validCheck key.keyGenOpt = true)
    (hrand : 8 ≤ st.rand.length)
    (hderive : env.deriveKey pwd (st.rand.take 8) encOpt.keyLen kdfOpt = .ok dKey)
    (henc : env.encryptKey key dKey encOpt = .ok encBytes) :
    (StoreKey env key pwd keyDirPath encOpt kdfOpt st).1 = .ok ()
    ∧ (StoreKey env key pwd keyDirPath encOpt kdfOpt st).2.files = st.files
    ∧ lookupFile (StoreKey env key pwd keyDirPath encOpt kdfOpt st).2 keyDirPath key.id
        = some c := by
  have hnlt : ¬ (st.rand.length < 8) := by omega
  have hsome : (st.files.find? (fun f => decide (f.1 = (keyDirPath, key.id)))).isSome = true := by
    unfold lookupFile at hfile
    cases hh : st.files.find? (fun f => decide (f.1 = (keyDirPath, key.id))) with
    | none => rw [hh] at hfile; exact Option.noConfusion hfile
    | some f => simp [hh]
  unfold lookupFile at hfile ⊢
  by_cases hd : keyDirPath ∈ st.dirs <;>
    simp [StoreKey, makeKeyFilePath, lookupFile, hd, hvalid, hnlt, hderive, henc, hsome, hfile]

/-- Witness for the amended C2 theorem: storing `sampleKey` again when
its file (content `[9, 9, 9]`) already exists succeeds and changes
nothing. -/
theorem storeKey_nonclobber_witness :
    lookupFile existingFileState "keys" sampleKey.id = some [9, 9, 9]
    ∧ validCheck sampleKey.keyGenOpt = true
    ∧ 8 ≤ existingFileState.rand.length
    ∧ toyEnv.deriveKey "aa" (existingFileState.rand.take 8) sampleEncOpt.keyLen sampleKdfOpt
        = .ok [97, 97]
    ∧ toyEnv.encryptKey sampleKey [97, 97] sampleEncOpt = .ok [96, 99, 98]
    ∧ ((StoreKey toyEnv sampleKey "aa" "keys" sampleEncOpt sampleKdfOpt existingFileState).1
         = .ok ()
       ∧ (StoreKey toyEnv sampleKey "aa" "keys" sampleEncOpt sampleKdfOpt
           existingFileState).2.files = existingFileState.files
       ∧ lookupFile (StoreKey toyEnv sampleKey "aa" "keys" sampleEncOpt sampleKdfOpt
           existingFileState).2 "keys" sampleKey.id = some [9, 9, 9]) :=
  ⟨rfl, rfl, by decide, rfl, rfl,
   storeKey_nonclobber toyEnv sampleKey "aa" "keys" sampleEncOpt sampleKdfOpt
     existingFileState [9, 9, 9] [97, 97] [96, 99, 98] rfl rfl (by decide) rfl rfl⟩

/-- C9: when `GenerateKey` succeeds (registered option, generation and
store succeed), it caches the generated pair in the manager's state yet
returns `nil, nil, nil` — the caller receives neither key from
`GenerateKey` and obtains the pair only through `GetKey`, which then
answers from the cache. -/
theorem generateKey_caches_returns_nil (env : KMEnv) (loadFn : Except String (KMKey × KMKey))
    (km : KeyManagerImpl) (fs : List (String × List Nat)) (o : KMOpts)
    (pri pub : KMKey) (fs₂ : List (String × List Nat))
    (hreg : generatorsFound o = true)
    (hgen : env.generate o = .ok (pri, pub))
    (hstore : env.store pri pub (removeAllUnder km.path fs) = .ok fs₂) :
    GenerateKey env km fs (some o)
      = ((none, none, none), { km with priKey := some pri, pubKey := some pub }, fs₂)
    ∧ (GetKey loadFn { km with priKey := some pri, pubKey := some pub }).1
        = (some pri, some pub, none) := by
  constructor
  · simp [GenerateKey, hreg, hgen, hstore]
  · rfl

/-- Witness for the C9 theorem: a successful generation over an empty
directory. -/
theorem generateKey_caches_returns_nil_witness :
    generatorsFound KMOpts.ecdsa384 = true
    ∧ toyKMEnv.generate KMOpts.ecdsa384 = .ok (⟨1⟩, ⟨2⟩)
    ∧ toyKMEnv.store ⟨1⟩ ⟨2⟩ (removeAllUnder sampleKM.path []) = .ok (removeAllUnder sampleKM.path [])
    ∧ (GenerateKey toyKMEnv sampleKM [] (some KMOpts.ecdsa384)
         = ((none, none, none), { sampleKM with priKey := some ⟨1⟩, pubKey := some ⟨2⟩ },
             removeAllUnder sampleKM.path [])
       ∧ (GetKey (.error "loader unused")
           { sampleKM with priKey := some ⟨1⟩, pubKey := some ⟨2⟩ }).1
           = (some ⟨1⟩, some ⟨2⟩, none)) :=
  ⟨rfl, rfl, rfl,
   generateKey_caches_returns_nil toyKMEnv (.error "loader unused") sampleKM []
     KMOpts.ecdsa384 ⟨1⟩ ⟨2⟩ (removeAllUnder sampleKM.path []) rfl rfl rfl⟩

/-- C10: `GenerateKey` removes the manager's whole on-disk directory
BEFORE validating the option: with a nil option or an unregistered
option it still returns the invalid-option error, the resulting file
population is exactly `removeAllUnder km.path fs`, and no file under the
manager's path survives. -/
theorem generateKey_removes_before_validate (env : KMEnv) (km : KeyManagerImpl)
    (fs : List (String × List Nat)) (opts : Option KMOpts)
    (hbad : opts = none ∨ ∃ t, opts = some (KMOpts.unregistered t)) :
    (GenerateKey env km fs opts).1 = (none, none, some "Invalid KeyGen Options")
    ∧ (GenerateKey env km fs opts).2.2 = removeAllUnder km.path fs
    ∧ ∀ p c, km.path.isPrefixOf p = true → (p, c) ∉ (GenerateKey env km fs opts).2.2 := by
  have hres : GenerateKey env km fs opts
      = ((none, none, some "Invalid KeyGen Options"), km, removeAllUnder km.path fs) := by
    rcases hbad with h | ⟨t, h⟩ <;> subst h <;> simp [GenerateKey, generatorsFound]
  refine ⟨by rw [hres], by rw [hres], ?_⟩
  intro p c hpre hmem
  rw [hres] at hmem
  rcases List.mem_filter.mp hmem with ⟨_, hkeep⟩
  simp [hpre] at hkeep

/-- Witness for the C10 theorem: a nil option over a directory holding a
file under the manager's path. -/
theorem generateKey_removes_before_validate_witness :
    ((none : Option KMOpts) = none ∨ ∃ t, (none : Option KMOpts) = some (KMOpts.unregistered t))
    ∧ ((GenerateKey toyKMEnv sampleKM sampleManagedFiles none).1
         = (none, none, some "Invalid KeyGen Options")
       ∧ (GenerateKey toyKMEnv sampleKM sampleManagedFiles none).2.2
           = removeAllUnder sampleKM.path sampleManagedFiles
       ∧ ∀ p c, sampleKM.path.isPrefixOf p = true →
           (p, c) ∉ (GenerateKey toyKMEnv sampleKM sampleManagedFiles none).2.2) :=
  ⟨Or.inl rfl,
   generateKey_removes_before_validate toyKMEnv sampleKM sampleManagedFiles none (Or.inl rfl)⟩
